import Mathlib

/-!
Shallow embedding of the webgpu_drag repository: three rendering backends
(`Engine` in src/lib/engine.ts, `EngineGL` in src/lib/engine_gl.ts,
`EngineCanvas` in src/lib/engine_canvas.ts) and the orchestration layer in
src/App.svelte.  JS numbers are modelled as rationals; DOM/GPU effects are
modelled by explicit state records and outcome flags translated line by line
from the source.
-/

/-- The 2D translation vector mutated by the pointer-drag handlers
(`this.translation` in each engine). -/
structure Translation where
  x : ℚ
  y : ℚ
  deriving DecidableEq

/-- `PointerState` from engine.ts / engine_canvas.ts / engine_gl.ts:
`{dragging: boolean, lastX: number, lastY: number}`. -/
structure PointerState where
  dragging : Bool
  lastX : ℚ
  lastY : ℚ
  deriving DecidableEq

/-- A pointer event as consumed by the handlers: `pointerId`, `clientX`,
`clientY`. -/
structure PointerEvent where
  pointerId : ℕ
  clientX : ℚ
  clientY : ℚ
  deriving DecidableEq

/-- Drag-relevant state of the WebGPU `Engine`: `translation`, `pointer` and
the `needsUpload` flag (engine.ts lines 55-57). -/
structure GPUDrag where
  translation : Translation
  pointer : PointerState
  needsUpload : Bool
  deriving DecidableEq

/-- Drag-relevant state of `EngineGL` and `EngineCanvas`: `translation` and
`pointer` (no upload flag). -/
structure DragState where
  translation : Translation
  pointer : PointerState
  deriving DecidableEq

/-- Projection of the WebGPU drag state onto the common drag state, used to
compare the handlers of the three backends. -/
def GPUDrag.toDrag (s : GPUDrag) : DragState :=
  { translation := s.translation, pointer := s.pointer }

/-- `Math.max(-2, Math.min(2, v))` — the clamping expression applied to both
translation components in the pointer-move handler of every backend. -/
def clamp2 (v : ℚ) : ℚ :=
  max (-2) (min 2 v)

/-- `onPointerMove` of the WebGPU `Engine` (engine.ts lines 201-217).
`w`, `h` are `canvas.clientWidth` / `canvas.clientHeight`. -/
def Engine.onPointerMove (w h : ℚ) (s : GPUDrag) (e : PointerEvent) : GPUDrag :=
  if s.pointer.dragging = false then s
  else
    let dx := e.clientX - s.pointer.lastX
    let dy := e.clientY - s.pointer.lastY
    { translation :=
        { x := clamp2 (s.translation.x + dx / (w / 2)),
          y := clamp2 (s.translation.y - dy / (h / 2)) },
      pointer := { dragging := s.pointer.dragging, lastX := e.clientX, lastY := e.clientY },
      needsUpload := true }

/-- `onPointerMove` of `EngineGL` (engine_gl.ts lines 259-271). -/
def EngineGL.onPointerMove (w h : ℚ) (s : DragState) (e : PointerEvent) : DragState :=
  if s.pointer.dragging = false then s
  else
    let dx := e.clientX - s.pointer.lastX
    let dy := e.clientY - s.pointer.lastY
    { translation :=
        { x := clamp2 (s.translation.x + dx / (w / 2)),
          y := clamp2 (s.translation.y - dy / (h / 2)) },
      pointer := { dragging := s.pointer.dragging, lastX := e.clientX, lastY := e.clientY } }

/-- `onPointerMove` of `EngineCanvas` (engine_canvas.ts lines 34-46). -/
def EngineCanvas.onPointerMove (w h : ℚ) (s : DragState) (e : PointerEvent) : DragState :=
  if s.pointer.dragging = false then s
  else
    let dx := e.clientX - s.pointer.lastX
    let dy := e.clientY - s.pointer.lastY
    { translation :=
        { x := clamp2 (s.translation.x + dx / (w / 2)),
          y := clamp2 (s.translation.y - dy / (h / 2)) },
      pointer := { dragging := s.pointer.dragging, lastX := e.clientX, lastY := e.clientY } }

/-- Both translation components lie in `[-2, 2]`. -/
def Translation.inRange (t : Translation) : Prop :=
  -2 ≤ t.x ∧ t.x ≤ 2 ∧ -2 ≤ t.y ∧ t.y ≤ 2

instance : DecidablePred Translation.inRange := fun t => by
  unfold Translation.inRange
  infer_instance

/-- The orchestrator `Mode` type from App.svelte:
`"webgpu" | "webgl" | "canvas"` (accelerated / rasterized / software). -/
inductive Mode where
  | webgpu
  | webgl
  | canvas
  deriving DecidableEq

/-- `nextMode` from App.svelte lines 40-45: webgl → webgpu → canvas → webgl. -/
def nextMode : Mode → Mode
  | .webgl => .webgpu
  | .webgpu => .canvas
  | .canvas => .webgl

/-- The backend constructed by a run of `initEngine`. -/
inductive BackendKind where
  | gpu
  | gl
  | canvas2d
  deriving DecidableEq

/-- Rank used only to justify termination of the single recursive
fallback call (webgpu → webgl). -/
def modeRank : Mode → ℕ
  | .webgpu => 1
  | .webgl => 0
  | .canvas => 0

/-- `initEngine` from App.svelte lines 22-38, as a function of the probed
`supportedWebGPU` flag and the current `mode`; returns the final mode and the
list of backend constructions attempted, in order.  The webgpu branch with
`!supportedWebGPU` sets `mode = "webgl"` and recurses, exactly as the code
does. -/
def initEngine (supported : Bool) : Mode → Mode × List BackendKind
  | .webgpu =>
      if supported then (.webgpu, [.gpu])
      else initEngine supported .webgl
  | .webgl => (.webgl, [.gl])
  | .canvas => (.canvas, [.canvas2d])
termination_by m => modeRank m
decreasing_by simp [modeRank]

/-- `onMount` from App.svelte lines 59-62: probes `"gpu" in navigator` and
forces `mode = "webgl"` when absent, before any backend is constructed.
Returns the resulting `(supportedWebGPU, mode)` pair. -/
def onMount (gpuInNavigator : Bool) (m : Mode) : Bool × Mode :=
  (gpuInNavigator, if gpuInNavigator = false then .webgl else m)

/-!
Frame-loop lifecycle.  All three engines share the same `start` / `frame`
structure; `stop` differs only in the cancellation guard (`!== null` in
engine.ts versus JS truthiness `if (this.animationFrame)` in engine_gl.ts
and engine_canvas.ts).  `requestAnimationFrame` is modelled by a host id
counter (browser ids are positive, so the counter starts at 1) and a single
pending callback slot; `draws` counts executed `drawFrame` / `draw` calls.
-/

/-- Lifecycle state of one engine instance plus the host scheduler. -/
structure LoopState where
  running : Bool
  animationFrame : Option ℕ
  pending : Option ℕ
  nextId : ℕ
  draws : ℕ
  listenersRemoved : Bool
  deriving DecidableEq

/-- Lifecycle state right after construction: not running, no frame
scheduled, listeners attached (engine.ts lines 53-54). -/
def LoopState.initial : LoopState :=
  { running := false, animationFrame := none, pending := none,
    nextId := 1, draws := 0, listenersRemoved := false }

/-- The `frame` closure body shared by all engines: bail out when the
running flag is down, otherwise draw and schedule the next tick via
`requestAnimationFrame` (engine.ts lines 249-253). -/
def frameBody (s : LoopState) : LoopState :=
  if s.running = false then s
  else
    { running := s.running,
      animationFrame := some s.nextId,
      pending := some s.nextId,
      nextId := s.nextId + 1,
      draws := s.draws + 1,
      listenersRemoved := s.listenersRemoved }

/-- `cancelAnimationFrame(id)`: drops the pending callback when its id
matches. -/
def cancelFrame (id : ℕ) (s : LoopState) : LoopState :=
  if s.pending = some id then
    { s with pending := none }
  else s

/-- `start()` shared by all three engines (engine.ts lines 246-255): no-op
when already running, otherwise raise the flag and invoke `frame` once. -/
def Engine.start (s : LoopState) : LoopState :=
  if s.running then s
  else frameBody { s with running := true }

/-- The host firing the scheduled animation callback: consumes the pending
slot and runs the `frame` body. -/
def hostTick (s : LoopState) : LoopState :=
  match s.pending with
  | some _ => frameBody { s with pending := none }
  | none => s

/-- `stop()` of the WebGPU `Engine` (engine.ts lines 257-261): the guard is
`this.animationFrame !== null`. -/
def Engine.stop (s : LoopState) : LoopState :=
  let s1 := { s with running := false }
  let s2 :=
    match s1.animationFrame with
    | some id => cancelFrame id s1
    | none => s1
  { s2 with animationFrame := none }

/-- `stop()` of `EngineGL` / `EngineCanvas` (engine_gl.ts line 294,
engine_canvas.ts line 69): the guard is the truthiness of
`this.animationFrame`, so id `0` would not be cancelled. -/
def EngineCanvas.stop (s : LoopState) : LoopState :=
  let s1 := { s with running := false }
  let s2 :=
    match s1.animationFrame with
    | some id => if id ≠ 0 then cancelFrame id s1 else s1
    | none => s1
  { s2 with animationFrame := none }

/-- `dispose()` of the WebGPU `Engine` (engine.ts lines 263-267): `stop()`
then run the cleanup closure that removes the event listeners. -/
def Engine.dispose (s : LoopState) : LoopState :=
  { Engine.stop s with listenersRemoved := true }

/-- `dispose()` of `EngineGL` / `EngineCanvas` (engine_gl.ts line 295,
engine_canvas.ts line 70). -/
def EngineCanvas.dispose (s : LoopState) : LoopState :=
  { EngineCanvas.stop s with listenersRemoved := true }

/-- Events that can hit an engine after teardown: host frame ticks and
further `stop` / `dispose` calls (no `start`). -/
inductive LoopEv where
  | tick
  | stopEv
  | disposeEv
  deriving DecidableEq

/-- Event step using the `stop` of the WebGPU engine. -/
def Engine.stepEv (s : LoopState) : LoopEv → LoopState
  | .tick => hostTick s
  | .stopEv => Engine.stop s
  | .disposeEv => Engine.dispose s

/-- Event step using the truthiness-guarded `stop` of `EngineGL` /
`EngineCanvas`. -/
def EngineCanvas.stepEv (s : LoopState) : LoopEv → LoopState
  | .tick => hostTick s
  | .stopEv => EngineCanvas.stop s
  | .disposeEv => EngineCanvas.dispose s

/-!
Asynchronous construction.  `create` awaits `init` and resolves with the
instance; `init` bails out early (after `console.error`) whenever a required
API or context is missing, so `create` never rejects.  The host environment
is modelled by availability flags for the host objects the code checks.
-/

/-- Host-environment flags checked by `Engine.init` (engine.ts lines 69-95):
the `gpu` member of `navigator`, a non-null adapter, and a non-null
the `webgpu` context of the canvas. -/
structure GPUEnv where
  gpuPresent : Bool
  adapterAvailable : Bool
  contextAvailable : Bool
  deriving DecidableEq

/-- Which construction steps of `Engine.init` completed. -/
structure GPUInit where
  deviceObtained : Bool
  contextObtained : Bool
  pipelineCreated : Bool
  handlersRegistered : Bool
  deriving DecidableEq

/-- An instance is ready when its device and context were obtained, its
pipeline built and its pointer handlers registered. -/
def GPUInit.isReady (r : GPUInit) : Bool :=
  r.deviceObtained && r.contextObtained && r.pipelineCreated && r.handlersRegistered

/-- `Engine.init` (engine.ts lines 69-95): each missing capability logs an
error and returns early, leaving the remaining fields unset. -/
def Engine.init (env : GPUEnv) : GPUInit :=
  if env.gpuPresent = false then
    { deviceObtained := false, contextObtained := false,
      pipelineCreated := false, handlersRegistered := false }
  else if env.adapterAvailable = false then
    { deviceObtained := false, contextObtained := false,
      pipelineCreated := false, handlersRegistered := false }
  else if env.contextAvailable = false then
    { deviceObtained := true, contextObtained := false,
      pipelineCreated := false, handlersRegistered := false }
  else
    { deviceObtained := true, contextObtained := true,
      pipelineCreated := true, handlersRegistered := true }

/-- The `BackendUnavailable` failure condition named by the spec. -/
inductive BackendUnavailable where
  | backendUnavailable
  deriving DecidableEq

/-- `Engine.create` (engine.ts lines 63-67): constructs the instance, awaits
`init`, and resolves with the instance.  No branch of the code rejects the
promise, so the result is always `.ok`. -/
def Engine.create (env : GPUEnv) : Except BackendUnavailable GPUInit :=
  .ok (Engine.init env)

/-- Which construction steps of `EngineGL.init` / `EngineCanvas.init`
completed: a context was obtained, resources set up, handlers registered. -/
structure CtxInit where
  contextObtained : Bool
  resourcesBuilt : Bool
  handlersRegistered : Bool
  deriving DecidableEq

/-- A context-backed instance is ready when the context was obtained,
resources built and pointer handlers registered. -/
def CtxInit.isReady (r : CtxInit) : Bool :=
  r.contextObtained && r.resourcesBuilt && r.handlersRegistered

/-- `EngineGL.init` (engine_gl.ts lines 201-210): a null `webgl2`/`webgl`
context logs an error and returns early; otherwise GL state and pointer
handlers are set up. -/
def EngineGL.init (contextAvailable : Bool) : CtxInit :=
  if contextAvailable = false then
    { contextObtained := false, resourcesBuilt := false, handlersRegistered := false }
  else
    { contextObtained := true, resourcesBuilt := true, handlersRegistered := true }

/-- `EngineGL.create` (engine_gl.ts lines 195-199): always resolves with the
instance. -/
def EngineGL.create (contextAvailable : Bool) : Except BackendUnavailable CtxInit :=
  .ok (EngineGL.init contextAvailable)

/-- `EngineCanvas.init` (engine_canvas.ts lines 24-29): a null `2d` context
logs an error and returns early; otherwise pointer handlers are set up. -/
def EngineCanvas.init (contextAvailable : Bool) : CtxInit :=
  if contextAvailable = false then
    { contextObtained := false, resourcesBuilt := false, handlersRegistered := false }
  else
    { contextObtained := true, resourcesBuilt := true, handlersRegistered := true }

/-- `EngineCanvas.create` (engine_canvas.ts lines 18-22): always resolves
with the instance. -/
def EngineCanvas.create (contextAvailable : Bool) : Except BackendUnavailable CtxInit :=
  .ok (EngineCanvas.init contextAvailable)

/-!
Resize handling.  The WebGPU engine recomputes the drawable size in
`configureContext` (run from `init` and from the `resize` listener); the
canvas engine does the same check lazily at the top of each `draw`; the GL
GL engine has an empty `resize` listener body.
-/

/-- Outcome of one resize check: the buffer dimensions afterwards, whether
the buffer was re-assigned, and whether `context.configure` was invoked. -/
structure ResizeOutcome where
  width : ℤ
  height : ℤ
  bufferResized : Bool
  contextConfigured : Bool
  deriving DecidableEq

/-- `Math.floor(clientSize * dpr)` with the `window.devicePixelRatio || 1`
falsy fallback, as computed in engine.ts lines 98-100 and engine_canvas.ts
lines 108-110. -/
def drawableSize (dpr clientSize : ℚ) : ℤ :=
  ⌊clientSize * (if dpr = 0 then 1 else dpr)⌋

/-- `Engine.configureContext` (engine.ts lines 97-110): computes
`floor(clientSize * dpr)`, re-assigns `canvas.width`/`canvas.height` only
when different — but calls `this.context.configure(...)` unconditionally,
outside the guard. -/
def Engine.configureContext (dpr clientW clientH : ℚ) (curW curH : ℤ) : ResizeOutcome :=
  let width := drawableSize dpr clientW
  let height := drawableSize dpr clientH
  if curW ≠ width ∨ curH ≠ height then
    { width := width, height := height, bufferResized := true, contextConfigured := true }
  else
    { width := curW, height := curH, bufferResized := false, contextConfigured := true }

/-- The size check at the top of `EngineCanvas.draw` (engine_canvas.ts lines
106-113): same `floor(clientSize * dpr)` computation, buffer re-assigned
only when different; there is no separate context configuration call. -/
def EngineCanvas.resizeCheck (dpr clientW clientH : ℚ) (curW curH : ℤ) : ResizeOutcome :=
  let width := drawableSize dpr clientW
  let height := drawableSize dpr clientH
  if curW ≠ width ∨ curH ≠ height then
    { width := width, height := height, bufferResized := true, contextConfigured := false }
  else
    { width := curW, height := curH, bufferResized := false, contextConfigured := false }

/-- The `onResize` listener of `EngineGL` (engine_gl.ts line 277): an empty body,
no recomputation and no reconfiguration. -/
def EngineGL.onResize (curW curH : ℤ) : ResizeOutcome :=
  { width := curW, height := curH, bufferResized := false, contextConfigured := false }

/-!
Pointer capture.  `setPointerCapture` in `onPointerDown` is called bare in
all three engines; `releasePointerCapture` in `endDrag` is wrapped in
a try/catch with an empty handler.  The outcome of the host call is a parameter; a handler
that lets the exception escape is modelled as returning `.error`.
-/

/-- Outcome of a host `setPointerCapture` / `releasePointerCapture` call. -/
inductive CaptureOutcome where
  | ok
  | fail
  deriving DecidableEq

/-- The exception escaping a pointer handler. -/
inductive CaptureError where
  | pointerCaptureFailed
  deriving DecidableEq

/-- `onPointerDown` of the WebGPU `Engine` (engine.ts lines 195-200):
`c.setPointerCapture(e.pointerId)` has no try/catch, so a failing capture
call throws out of the handler before any state is written. -/
def Engine.onPointerDown (cap : CaptureOutcome) (s : GPUDrag) (e : PointerEvent) :
    Except CaptureError GPUDrag :=
  match cap with
  | .fail => .error .pointerCaptureFailed
  | .ok =>
      .ok { s with pointer := { dragging := true, lastX := e.clientX, lastY := e.clientY } }

/-- `onPointerDown` of `EngineGL` (engine_gl.ts line 258) and
`EngineCanvas` (engine_canvas.ts line 33): identical bare capture call. -/
def EngineCanvas.onPointerDown (cap : CaptureOutcome) (s : DragState) (e : PointerEvent) :
    Except CaptureError DragState :=
  match cap with
  | .fail => .error .pointerCaptureFailed
  | .ok =>
      .ok { s with pointer := { dragging := true, lastX := e.clientX, lastY := e.clientY } }

/-- `endDrag` of the WebGPU `Engine` (engine.ts lines 218-223): the release
call runs only while dragging and inside `try { } catch { }`, so its outcome
never escapes; `dragging` is always cleared. -/
def Engine.endDrag (rel : CaptureOutcome) (s : GPUDrag) : Except CaptureError GPUDrag :=
  .ok { s with pointer := { s.pointer with dragging := false } }

/-- `endDrag` of `EngineGL` (engine_gl.ts line 272) and `EngineCanvas`
(engine_canvas.ts line 47): same swallowed release. -/
def EngineCanvas.endDrag (rel : CaptureOutcome) (s : DragState) : Except CaptureError DragState :=
  .ok { s with pointer := { s.pointer with dragging := false } }

/-!
Concrete data for the test scenarios of the spec.
-/

/-- Drag state at the start of the ten-drag scenario: translation `(0, 0)`,
dragging with the pointer last seen at `(0, 200)`. -/
def startDrag : GPUDrag :=
  { translation := { x := 0, y := 0 },
    pointer := { dragging := true, lastX := 0, lastY := 200 },
    needsUpload := true }

/-- Ten successive pointer-move events on a 640-wide surface, each with
`dx = 160` (so each contributes `160 / (640 / 2) = +0.5` to
`Translation.x`) and `dy = 0`. -/
def tenDrags : List PointerEvent :=
  [⟨1, 160, 200⟩, ⟨1, 320, 200⟩, ⟨1, 480, 200⟩, ⟨1, 640, 200⟩, ⟨1, 800, 200⟩,
   ⟨1, 960, 200⟩, ⟨1, 1120, 200⟩, ⟨1, 1280, 200⟩, ⟨1, 1440, 200⟩, ⟨1, 1600, 200⟩]

/-- Drag state for the 640×400 single-drag scenario: translation `(0, 0)`,
dragging with the pointer last seen at `(320, 200)`. -/
def midDrag : DragState :=
  { translation := { x := 0, y := 0 },
    pointer := { dragging := true, lastX := 320, lastY := 200 } }

/-! Helper lemmas about the clamped drag update. -/

lemma clamp2_mem (v : ℚ) : -2 ≤ clamp2 v ∧ clamp2 v ≤ 2 := by
  refine ⟨le_max_left _ _, max_le (by norm_num) (min_le_left _ _)⟩

lemma clamp2_pair_inRange (a b : ℚ) :
    Translation.inRange { x := clamp2 a, y := clamp2 b } :=
  ⟨(clamp2_mem a).1, (clamp2_mem a).2, (clamp2_mem b).1, (clamp2_mem b).2⟩

lemma gpuMove_inRange (w h : ℚ) (s : GPUDrag) (e : PointerEvent)
    (hs : s.translation.inRange) :
    (Engine.onPointerMove w h s e).translation.inRange := by
  unfold Engine.onPointerMove
  split
  · exact hs
  · exact clamp2_pair_inRange _ _

lemma glMove_inRange (w h : ℚ) (s : DragState) (e : PointerEvent)
    (hs : s.translation.inRange) :
    (EngineGL.onPointerMove w h s e).translation.inRange := by
  unfold EngineGL.onPointerMove
  split
  · exact hs
  · exact clamp2_pair_inRange _ _

lemma canvasMove_inRange (w h : ℚ) (s : DragState) (e : PointerEvent)
    (hs : s.translation.inRange) :
    (EngineCanvas.onPointerMove w h s e).translation.inRange := by
  unfold EngineCanvas.onPointerMove
  split
  · exact hs
  · exact clamp2_pair_inRange _ _

lemma gpuFoldMove_inRange (w h : ℚ) (evs : List PointerEvent) :
    ∀ s : GPUDrag, s.translation.inRange →
      (evs.foldl (Engine.onPointerMove w h) s).translation.inRange := by
  induction evs with
  | nil => exact fun s hs => hs
  | cons e t ih =>
      exact fun s hs => ih _ (gpuMove_inRange w h s e hs)

lemma glFoldMove_inRange (w h : ℚ) (evs : List PointerEvent) :
    ∀ s : DragState, s.translation.inRange →
      (evs.foldl (EngineGL.onPointerMove w h) s).translation.inRange := by
  induction evs with
  | nil => exact fun s hs => hs
  | cons e t ih =>
      exact fun s hs => ih _ (glMove_inRange w h s e hs)

lemma canvasFoldMove_inRange (w h : ℚ) (evs : List PointerEvent) :
    ∀ s : DragState, s.translation.inRange →
      (evs.foldl (EngineCanvas.onPointerMove w h) s).translation.inRange := by
  induction evs with
  | nil => exact fun s hs => hs
  | cons e t ih =>
      exact fun s hs => ih _ (canvasMove_inRange w h s e hs)

/-- C1: for every sequence of pointer-move events fed through any of the
`onPointerMove` handlers of the three backends, both translation components stay
in `[-2, 2]` (given they start there — they start at `(0, 0)`); and ten
successive drags each contributing `+0.5` to `Translation.x` on a 640×400
surface leave `Translation.x` at exactly `2`. -/
theorem translation_clamping_invariant :
    (∀ (w h : ℚ) (evs : List PointerEvent) (s : GPUDrag), s.translation.inRange →
        (evs.foldl (Engine.onPointerMove w h) s).translation.inRange) ∧
    (∀ (w h : ℚ) (evs : List PointerEvent) (s : DragState), s.translation.inRange →
        (evs.foldl (EngineGL.onPointerMove w h) s).translation.inRange) ∧
    (∀ (w h : ℚ) (evs : List PointerEvent) (s : DragState), s.translation.inRange →
        (evs.foldl (EngineCanvas.onPointerMove w h) s).translation.inRange) ∧
    (tenDrags.foldl (Engine.onPointerMove 640 400) startDrag).translation.x = 2 := by
  refine ⟨fun w h evs => gpuFoldMove_inRange w h evs,
          fun w h evs => glFoldMove_inRange w h evs,
          fun w h evs => canvasFoldMove_inRange w h evs, ?_⟩
  norm_num [tenDrags, startDrag, Engine.onPointerMove, clamp2, List.foldl]

/-- Witness for C1: a concrete two-event drag starting at translation
`(0, 0)` stays in range. -/
theorem translation_clamping_invariant_witness :
    (([⟨1, 100, 100⟩, ⟨1, 500, 50⟩] : List PointerEvent).foldl
        (Engine.onPointerMove 640 400)
        { translation := { x := 0, y := 0 },
          pointer := { dragging := true, lastX := 0, lastY := 0 },
          needsUpload := true }).translation.inRange :=
  translation_clamping_invariant.1 640 400 _ _
    (by norm_num [Translation.inRange])

/-- C2: while dragging, each backend updates the translation by exactly
`(dx / (w/2), -dy / (h/2))` before clamping, with `dx`, `dy` the pixel delta
against the last recorded position; the three backends compute identical
updates; and on a 640×400 surface, a drag from `(320, 200)` to `(400, 250)`
gives `dx = 80`, `dy = 50` and the update `(1/4, -1/4)`, which clamping
leaves untouched. -/
theorem onPointerMove_update_exact :
    (∀ (w h : ℚ) (s : GPUDrag) (e : PointerEvent), s.pointer.dragging = true →
        (Engine.onPointerMove w h s e).translation =
          { x := clamp2 (s.translation.x + (e.clientX - s.pointer.lastX) / (w / 2)),
            y := clamp2 (s.translation.y - (e.clientY - s.pointer.lastY) / (h / 2)) }) ∧
    (∀ (w h : ℚ) (s : DragState) (e : PointerEvent), s.pointer.dragging = true →
        (EngineGL.onPointerMove w h s e).translation =
          { x := clamp2 (s.translation.x + (e.clientX - s.pointer.lastX) / (w / 2)),
            y := clamp2 (s.translation.y - (e.clientY - s.pointer.lastY) / (h / 2)) }) ∧
    (∀ (w h : ℚ) (s : DragState) (e : PointerEvent), s.pointer.dragging = true →
        (EngineCanvas.onPointerMove w h s e).translation =
          { x := clamp2 (s.translation.x + (e.clientX - s.pointer.lastX) / (w / 2)),
            y := clamp2 (s.translation.y - (e.clientY - s.pointer.lastY) / (h / 2)) }) ∧
    (∀ (w h : ℚ) (s : GPUDrag) (e : PointerEvent),
        (Engine.onPointerMove w h s e).toDrag = EngineGL.onPointerMove w h s.toDrag e) ∧
    (∀ (w h : ℚ) (s : DragState) (e : PointerEvent),
        EngineGL.onPointerMove w h s e = EngineCanvas.onPointerMove w h s e) ∧
    (EngineGL.onPointerMove 640 400 midDrag ⟨1, 400, 250⟩).translation =
      { x := 1/4, y := -1/4 } ∧
    ((400 : ℚ) - 320 = 80 ∧ (250 : ℚ) - 200 = 50) ∧
    (0 : ℚ) + 80 / (640 / 2) = 1/4 ∧
    (0 : ℚ) - 50 / (400 / 2) = -1/4 ∧
    clamp2 (1/4) = 1/4 ∧ clamp2 (-1/4) = -1/4 := by
  refine ⟨?_, ?_, ?_, ?_, fun w h s e => rfl, ?_, ⟨by norm_num, by norm_num⟩,
          by norm_num, by norm_num, by norm_num [clamp2], by norm_num [clamp2]⟩
  · intro w h s e hd
    simp [Engine.onPointerMove, hd]
  · intro w h s e hd
    simp [EngineGL.onPointerMove, hd]
  · intro w h s e hd
    simp [EngineCanvas.onPointerMove, hd]
  · intro w h s e
    cases hd : s.pointer.dragging <;>
      simp [Engine.onPointerMove, EngineGL.onPointerMove, GPUDrag.toDrag, hd]
  · norm_num [EngineGL.onPointerMove, midDrag, clamp2]

/-- Witness for C2: the exact-update formula applied to a concrete dragging
state and event. -/
theorem onPointerMove_update_exact_witness :
    (Engine.onPointerMove 640 400 startDrag ⟨1, 160, 200⟩).translation =
      { x := clamp2 (startDrag.translation.x + ((160 : ℚ) - startDrag.pointer.lastX) / (640 / 2)),
        y := clamp2 (startDrag.translation.y - ((200 : ℚ) - startDrag.pointer.lastY) / (400 / 2)) } :=
  onPointerMove_update_exact.1 640 400 startDrag ⟨1, 160, 200⟩ rfl

/-- C10: a pointer-move received while not dragging leaves the whole engine
state (translation, pointer fields, upload flag) unchanged, in all three
backends. -/
theorem onPointerMove_idle_noop :
    (∀ (w h : ℚ) (s : GPUDrag) (e : PointerEvent), s.pointer.dragging = false →
        Engine.onPointerMove w h s e = s) ∧
    (∀ (w h : ℚ) (s : DragState) (e : PointerEvent), s.pointer.dragging = false →
        EngineGL.onPointerMove w h s e = s) ∧
    (∀ (w h : ℚ) (s : DragState) (e : PointerEvent), s.pointer.dragging = false →
        EngineCanvas.onPointerMove w h s e = s) := by
  refine ⟨?_, ?_, ?_⟩
  · intro w h s e hd
    simp [Engine.onPointerMove, hd]
  · intro w h s e hd
    simp [EngineGL.onPointerMove, hd]
  · intro w h s e hd
    simp [EngineCanvas.onPointerMove, hd]

/-- Witness for C10: a concrete idle state is untouched by a pointer-move. -/
theorem onPointerMove_idle_noop_witness :
    Engine.onPointerMove 640 400
      { translation := { x := 1/2, y := -1/3 },
        pointer := { dragging := false, lastX := 7, lastY := 9 },
        needsUpload := false } ⟨1, 400, 250⟩ =
      { translation := { x := 1/2, y := -1/3 },
        pointer := { dragging := false, lastX := 7, lastY := 9 },
        needsUpload := false } :=
  onPointerMove_idle_noop.1 640 400 _ ⟨1, 400, 250⟩ rfl

/-- C6: `nextMode` is the 3-cycle webgl (rasterized) → webgpu (accelerated)
→ canvas (software) → webgl; applying it three times is the identity. -/
theorem nextMode_three_cycle :
    (∀ m : Mode, nextMode (nextMode (nextMode m)) = m) ∧
    nextMode .webgl = .webgpu ∧ nextMode .webgpu = .canvas ∧
    nextMode .canvas = .webgl :=
  ⟨fun m => by cases m <;> rfl, rfl, rfl, rfl⟩

/-- C5: when the capability probe reports WebGPU absent, `initEngine` never
constructs the accelerated backend from any mode; from the accelerated mode
it forces the mode to webgl and constructs exactly the WebGL backend; and
`onMount` forces the mode to webgl before any backend is constructed. -/
theorem unsupported_webgpu_forces_rasterized :
    (∀ m : Mode, BackendKind.gpu ∉ (initEngine false m).2) ∧
    initEngine false .webgpu = (.webgl, [.gl]) ∧
    initEngine false .webgl = (.webgl, [.gl]) ∧
    (∀ m : Mode, (onMount false m).2 = .webgl) := by
  have hgl : initEngine false .webgl = (.webgl, [.gl]) := by
    simp [initEngine]
  have hgpu : initEngine false .webgpu = (.webgl, [.gl]) := by
    simp [initEngine]
  refine ⟨?_, hgpu, hgl, fun m => rfl⟩
  intro m
  cases m
  · rw [hgpu]; simp
  · rw [hgl]; simp
  · simp [initEngine]

/-! Helper lemmas about the frame-loop lifecycle. -/

lemma frameBody_not_running {s : LoopState} (h : s.running = false) :
    frameBody s = s := by
  simp [frameBody, h]

lemma hostTick_halted {s : LoopState} (h : s.running = false) :
    (hostTick s).draws = s.draws ∧ (hostTick s).running = false := by
  unfold hostTick
  cases hp : s.pending
  · exact ⟨rfl, h⟩
  · rw [frameBody_not_running (by simpa using h)]
    exact ⟨rfl, h⟩

lemma gpuStop_halted (s : LoopState) :
    (Engine.stop s).running = false ∧ (Engine.stop s).draws = s.draws ∧
      (Engine.stop s).listenersRemoved = s.listenersRemoved := by
  unfold Engine.stop
  cases ha : s.animationFrame
  · exact ⟨rfl, rfl, rfl⟩
  · simp only [cancelFrame]
    split <;> exact ⟨rfl, rfl, rfl⟩

lemma canvasStop_halted (s : LoopState) :
    (EngineCanvas.stop s).running = false ∧ (EngineCanvas.stop s).draws = s.draws ∧
      (EngineCanvas.stop s).listenersRemoved = s.listenersRemoved := by
  unfold EngineCanvas.stop
  cases ha : s.animationFrame
  · exact ⟨rfl, rfl, rfl⟩
  · simp only [cancelFrame]
    split
    · split <;> exact ⟨rfl, rfl, rfl⟩
    · exact ⟨rfl, rfl, rfl⟩

lemma gpuStep_halted {s : LoopState} (h : s.running = false) (e : LoopEv) :
    (Engine.stepEv s e).draws = s.draws ∧ (Engine.stepEv s e).running = false := by
  cases e
  · exact hostTick_halted h
  · exact ⟨(gpuStop_halted s).2.1, (gpuStop_halted s).1⟩
  · exact ⟨(gpuStop_halted s).2.1, (gpuStop_halted s).1⟩

lemma canvasStep_halted {s : LoopState} (h : s.running = false) (e : LoopEv) :
    (EngineCanvas.stepEv s e).draws = s.draws ∧ (EngineCanvas.stepEv s e).running = false := by
  cases e
  · exact hostTick_halted h
  · exact ⟨(canvasStop_halted s).2.1, (canvasStop_halted s).1⟩
  · exact ⟨(canvasStop_halted s).2.1, (canvasStop_halted s).1⟩

lemma gpuFoldEv_halted (evs : List LoopEv) :
    ∀ s : LoopState, s.running = false →
      (evs.foldl Engine.stepEv s).draws = s.draws := by
  induction evs with
  | nil => exact fun s _ => rfl
  | cons e t ih =>
      intro s h
      have he := gpuStep_halted h e
      rw [List.foldl_cons, ih _ he.2, he.1]

lemma canvasFoldEv_halted (evs : List LoopEv) :
    ∀ s : LoopState, s.running = false →
      (evs.foldl EngineCanvas.stepEv s).draws = s.draws := by
  induction evs with
  | nil => exact fun s _ => rfl
  | cons e t ih =>
      intro s h
      have he := canvasStep_halted h e
      rw [List.foldl_cons, ih _ he.2, he.1]

/-- C3: once `stop()` or `dispose()` has run and no `start()` follows, no
draw ever executes again: any sequence of host frame ticks (including a
tick already scheduled when `stop`/`dispose` ran) and further
`stop`/`dispose` calls leaves the draw count unchanged, for the WebGPU
`stop` of the WebGPU engine and for the truthiness-guarded `stop` shared by the WebGL
and canvas engines. -/
theorem dispose_prevents_render :
    (∀ (s : LoopState) (evs : List LoopEv),
        (evs.foldl Engine.stepEv (Engine.stop s)).draws = (Engine.stop s).draws) ∧
    (∀ (s : LoopState) (evs : List LoopEv),
        (evs.foldl Engine.stepEv (Engine.dispose s)).draws = (Engine.dispose s).draws) ∧
    (∀ (s : LoopState) (evs : List LoopEv),
        (evs.foldl EngineCanvas.stepEv (EngineCanvas.stop s)).draws =
          (EngineCanvas.stop s).draws) ∧
    (∀ (s : LoopState) (evs : List LoopEv),
        (evs.foldl EngineCanvas.stepEv (EngineCanvas.dispose s)).draws =
          (EngineCanvas.dispose s).draws) := by
  refine ⟨fun s evs => ?_, fun s evs => ?_, fun s evs => ?_, fun s evs => ?_⟩
  · exact gpuFoldEv_halted evs _ (gpuStop_halted s).1
  · exact gpuFoldEv_halted evs _ (gpuStop_halted s).1
  · exact canvasFoldEv_halted evs _ (canvasStop_halted s).1
  · exact canvasFoldEv_halted evs _ (canvasStop_halted s).1

lemma gpuStop_fixed {t : LoopState} (hr : t.running = false)
    (ha : t.animationFrame = none) : Engine.stop t = t := by
  obtain ⟨r, af, p, n, d, l⟩ := t
  subst hr
  subst ha
  rfl

lemma canvasStop_fixed {t : LoopState} (hr : t.running = false)
    (ha : t.animationFrame = none) : EngineCanvas.stop t = t := by
  obtain ⟨r, af, p, n, d, l⟩ := t
  subst hr
  subst ha
  rfl

/-- C7: `start()` is a no-op when the loop is already running; `stop()` is
idempotent for both stop variants; and `stop()` releases nothing — the
listeners stay attached and the draw count is untouched. -/
theorem start_stop_idempotent :
    (∀ s : LoopState, s.running = true → Engine.start s = s) ∧
    (∀ s : LoopState, Engine.stop (Engine.stop s) = Engine.stop s) ∧
    (∀ s : LoopState, (Engine.stop s).listenersRemoved = s.listenersRemoved ∧
        (Engine.stop s).draws = s.draws) ∧
    (∀ s : LoopState, EngineCanvas.stop (EngineCanvas.stop s) = EngineCanvas.stop s) ∧
    (∀ s : LoopState, (EngineCanvas.stop s).listenersRemoved = s.listenersRemoved ∧
        (EngineCanvas.stop s).draws = s.draws) := by
  refine ⟨?_, ?_, ?_, ?_, ?_⟩
  · intro s h
    simp [Engine.start, h]
  · intro s
    exact gpuStop_fixed (gpuStop_halted s).1 rfl
  · intro s
    exact ⟨(gpuStop_halted s).2.2, (gpuStop_halted s).2.1⟩
  · intro s
    exact canvasStop_fixed (canvasStop_halted s).1 rfl
  · intro s
    exact ⟨(canvasStop_halted s).2.2, (canvasStop_halted s).2.1⟩

/-- Witness for C7: `start` leaves a concrete already-running state
unchanged. -/
theorem start_stop_idempotent_witness :
    Engine.start
      { running := true, animationFrame := some 3, pending := some 3,
        nextId := 4, draws := 7, listenersRemoved := false } =
      { running := true, animationFrame := some 3, pending := some 3,
        nextId := 4, draws := 7, listenersRemoved := false } :=
  start_stop_idempotent.1 _ rfl

/-- C4 counterexample: with WebGPU absent from the host (no `gpu`
member on `navigator`), `Engine.create` still resolves successfully — `init`
merely logs and returns early — yielding an instance whose device and
context were never obtained, so `create` neither fails with
`BackendUnavailable` nor returns a ready instance. -/
theorem create_resolves_without_device :
    Engine.create { gpuPresent := false, adapterAvailable := true, contextAvailable := true } =
      .ok { deviceObtained := false, contextObtained := false,
            pipelineCreated := false, handlersRegistered := false } ∧
    (Engine.init
        { gpuPresent := false, adapterAvailable := true, contextAvailable := true }).isReady
      = false :=
  ⟨rfl, rfl⟩

/-- C4 amended: `create` always resolves with the instance produced by
`init` (it never rejects, and in particular never signals
`BackendUnavailable`); the instance is fully ready exactly when every
required capability was available, and otherwise is partially initialized
with the missing steps skipped. -/
theorem create_always_resolves :
    (∀ env : GPUEnv, Engine.create env = .ok (Engine.init env) ∧
        (Engine.init env).isReady =
          (env.gpuPresent && env.adapterAvailable && env.contextAvailable)) ∧
    (∀ b : Bool, EngineGL.create b = .ok (EngineGL.init b) ∧
        (EngineGL.init b).isReady = b) ∧
    (∀ b : Bool, EngineCanvas.create b = .ok (EngineCanvas.init b) ∧
        (EngineCanvas.init b).isReady = b) := by
  refine ⟨?_, ?_, ?_⟩
  · rintro ⟨g, a, c⟩
    cases g <;> cases a <;> cases c <;> exact ⟨rfl, rfl⟩
  · intro b
    cases b <;> exact ⟨rfl, rfl⟩
  · intro b
    cases b <;> exact ⟨rfl, rfl⟩

/-- C8 counterexample: with dpr 1, CSS size 640×400 and the buffer already
640×400, the computed size equals the current size, the buffer is not
re-assigned — yet `Engine.configureContext` still calls
`context.configure`, because that call sits outside the size guard. -/
theorem configure_runs_on_equal_size :
    (Engine.configureContext 1 640 400 640 400).bufferResized = false ∧
    (Engine.configureContext 1 640 400 640 400).contextConfigured = true := by
  norm_num [Engine.configureContext, drawableSize]

/-- C8 amended: every resize check recomputes `floor(CSS size × dpr)` and
re-assigns the drawable buffer exactly when the computed size differs from
the current one, in `configureContext` of the WebGPU engine and in the
per-frame check of the canvas engine alike — but the WebGPU engine reconfigures its
context on every check regardless, and the resize listener of the WebGL
engine does nothing at all. -/
theorem resize_buffer_only_on_change :
    (∀ (dpr cw ch : ℚ) (curW curH : ℤ),
        ((Engine.configureContext dpr cw ch curW curH).bufferResized = true ↔
          (curW ≠ drawableSize dpr cw ∨ curH ≠ drawableSize dpr ch)) ∧
        (Engine.configureContext dpr cw ch curW curH).contextConfigured = true) ∧
    (∀ (dpr cw ch : ℚ) (curW curH : ℤ),
        ((EngineCanvas.resizeCheck dpr cw ch curW curH).bufferResized = true ↔
          (curW ≠ drawableSize dpr cw ∨ curH ≠ drawableSize dpr ch)) ∧
        (EngineCanvas.resizeCheck dpr cw ch curW curH).contextConfigured = false) ∧
    (∀ curW curH : ℤ, EngineGL.onResize curW curH =
        { width := curW, height := curH, bufferResized := false,
          contextConfigured := false }) := by
  refine ⟨?_, ?_, fun curW curH => rfl⟩
  · intro dpr cw ch curW curH
    simp only [Engine.configureContext]
    split
    next h => exact ⟨iff_of_true rfl h, rfl⟩
    next h => exact ⟨iff_of_false (by simp) h, rfl⟩
  · intro dpr cw ch curW curH
    simp only [EngineCanvas.resizeCheck]
    split
    next h => exact ⟨iff_of_true rfl h, rfl⟩
    next h => exact ⟨iff_of_false (by simp) h, rfl⟩

/-- C9 counterexample: a failing `setPointerCapture` call inside
`onPointerDown` is not wrapped in try/catch, so the failure propagates out
of the handler instead of being swallowed. -/
theorem pointer_capture_failure_propagates :
    Engine.onPointerDown .fail startDrag ⟨1, 5, 5⟩ = .error .pointerCaptureFailed :=
  rfl

/-- C9 amended: a failing `releasePointerCapture` inside `endDrag` is always
swallowed — the handler returns normally with `dragging` cleared, whatever
the release outcome, in every backend — but a failing `setPointerCapture`
inside `onPointerDown` propagates out of the handler, leaving the drag
state unentered. -/
theorem release_swallowed_capture_propagates :
    (∀ (rel : CaptureOutcome) (s : GPUDrag),
        Engine.endDrag rel s =
          .ok { s with pointer := { s.pointer with dragging := false } }) ∧
    (∀ (rel : CaptureOutcome) (s : DragState),
        EngineCanvas.endDrag rel s =
          .ok { s with pointer := { s.pointer with dragging := false } }) ∧
    (∀ (s : GPUDrag) (e : PointerEvent),
        Engine.onPointerDown .fail s e = .error .pointerCaptureFailed) ∧
    (∀ (s : DragState) (e : PointerEvent),
        EngineCanvas.onPointerDown .fail s e = .error .pointerCaptureFailed) :=
  ⟨fun rel s => rfl, fun rel s => rfl, fun s e => rfl, fun s e => rfl⟩
